import Mathlib

/-!
Shallow embedding of the AutoVFX credit / billing code (pxlsafe/autovfx).

The embedded source functions:

* `calculateCredits` — src/api/v2/utils.js, `calculateCredits(seconds)`:
  `Math.ceil(seconds) * creditsPerSecond`.  Seconds are modelled as `ℚ`
  (all values appearing in the claims are exact decimals, so rationals are
  a faithful model of the JS doubles involved), credits as `ℤ`.
* `subtractCredits` — src/api/v2/index.js lines 303-316: unconditionally
  runs `UPDATE users SET balance = balance - credits` with
  `credits = calculateCredits(seconds)` (the code carries a TODO
  "Make sure balance cannot go below 0").
* `statusHandler` — src/api/v2/index.js lines 267-293, the `/status`
  route: rejects a missing id or falsy seconds with 400, and when the
  retrieved Runway task has status SUCCEEDED it calls `subtractCredits`.
  There is no reservation lookup, no closed state and no per-task
  deduplication in the source.
* `reserveJob` — src/webhook-server.js lines 417-430 (`/v1/jobs`):
  `requestedSeconds = Math.max(0, Number(...))`,
  `billableSeconds = Math.max(1, Math.round(requestedSeconds))`,
  `needed = billableSeconds * creditsPerSecond`; rejects with 402 carrying
  `needed` and `balance` when `balance < needed`, otherwise debits and
  returns `taskId = "task_" + Date.now()` with `reservedCredits = needed`.
  JS `Math.round x` is `⌊x + 1/2⌋` (round half toward +∞), embedded as
  `jsRound`.
* `handleShopifyWebhook` — src/webhook-server.js lines 151-294, the
  Shopify webhook route: duplicate check against the `processedWebhookIds`
  set, HMAC verification, credit grant for subscription items via the
  `planCredits` table (default 1000), and `processedWebhookIds.add` at the
  end of the handler body (it runs even when JSON parsing threw, because
  the catch block swallows the error).
* `reserveJobNum` — the same `/v1/jobs` handler, but over `JSNum`, an
  embedding of JS numbers that tracks NaN propagation exactly (needed for
  the non-numeric-input behavior; no inexact rounding is involved on the
  modelled paths, so `ℚ ⊕ NaN` is faithful).
-/

/-- JS `Math.round` on the values relevant here: round half toward +∞. -/
def jsRound (q : ℚ) : ℤ := ⌊q + 1/2⌋

/-- Embeds `calculateCredits` from src/api/v2/utils.js:
`Math.ceil(seconds) * creditsPerSecond`. -/
def calculateCredits (creditsPerSecond : ℤ) (seconds : ℚ) : ℤ :=
  ⌈seconds⌉ * creditsPerSecond

/-- Embeds `subtractCredits` from src/api/v2/index.js:
`UPDATE users SET balance = balance - $1` with `$1 = calculateCredits(seconds)`. -/
def subtractCredits (creditsPerSecond : ℤ) (balance : ℤ) (seconds : ℚ) : ℤ :=
  balance - calculateCredits creditsPerSecond seconds

/-- Result of the `/status` route of src/api/v2/index.js. -/
inductive StatusResult where
  | badRequest
  | settled (newBalance : ℤ)
  | pending
deriving DecidableEq

/-- Embeds the `/status` route handler of src/api/v2/index.js (lines
267-293).  `hasId` is the truthiness of `req.body.id`, `seconds` the posted
seconds (falsy, i.e. zero, is rejected), `succeeded` whether the retrieved
Runway task has status SUCCEEDED.  Returns the HTTP-level outcome and the
stored balance after the call. -/
def statusHandler (creditsPerSecond : ℤ) (hasId : Bool) (seconds : ℚ)
    (succeeded : Bool) (balance : ℤ) : StatusResult × ℤ :=
  if !hasId ∨ seconds = 0 then (.badRequest, balance)
  else if succeeded then
    let nb := subtractCredits creditsPerSecond balance seconds
    (.settled nb, nb)
  else (.pending, balance)

/-- Spec-side settlement delta, for comparison: the spec states the balance
change at settlement is `max(0, reservedCredits - usedCredits)` (a refund,
never a debit). -/
def specSettleDelta (reservedCredits usedCredits : ℤ) : ℤ :=
  max 0 (reservedCredits - usedCredits)

/-- Claim C1 counterexample: settling is not idempotent.  With
creditsPerSecond 15, a SUCCEEDED task and seconds 3, the first `/status`
settle takes the balance from 100 to 55, and a second settle on the same
task changes the balance again, to 10 — not a zero additional change. -/
theorem statusHandler_second_settle_changes_balance :
    (statusHandler 15 true 3 true 100).2 = 55 ∧
    (statusHandler 15 true 3 true ((statusHandler 15 true 3 true 100).2)).2 = 10 ∧
    (10 : ℤ) ≠ 55 := by
  decide

/-- Claim C1 (amended): the `/status` settle path has no reservation or
closed state; every call on a SUCCEEDED task with nonzero seconds debits
`calculateCredits seconds` again, so two settles leave the balance at
`b - 2 * calculateCredits seconds`. -/
theorem statusHandler_double_settle (cps : ℤ) (s : ℚ) (b : ℤ) (hs : s ≠ 0) :
    (statusHandler cps true s true ((statusHandler cps true s true b).2)).2
      = b - 2 * calculateCredits cps s := by
  simp [statusHandler, subtractCredits, hs]
  ring

/-- Witness for `statusHandler_double_settle` at cps 15, seconds 3,
balance 100. -/
theorem statusHandler_double_settle_witness :
    (statusHandler 15 true 3 true ((statusHandler 15 true 3 true 100).2)).2
      = 100 - 2 * calculateCredits 15 3 :=
  statusHandler_double_settle 15 3 100 (by norm_num)

/-- Claim C2 counterexample: settlement is an additional debit, not a
refund.  In the spec's scenario (reserved 75 credits at 15/s, balance 25
after the reserve, actual 3 seconds) the spec predicts a refund of
`max(0, 75 - 45) = 30`, i.e. balance 55; the code's settle path instead
subtracts 45 more, leaving balance -20 — a negative delta beyond the
reservation. -/
theorem statusHandler_settle_debits_again :
    (statusHandler 15 true 3 true 25).2 = -20 ∧
    25 + specSettleDelta 75 (calculateCredits 15 3) = 55 ∧
    ((-20 : ℤ) ≠ 55) ∧ (statusHandler 15 true 3 true 25).2 - 25 < 0 := by
  decide

/-- Claim C2 (amended): settlement on a SUCCEEDED task unconditionally
debits `calculateCredits actualSeconds` — a negative balance delta whenever
that amount is positive — with no reference to any reserved amount, so it
strictly decreases the balance instead of refunding. -/
theorem statusHandler_settle_delta (cps : ℤ) (s : ℚ) (b : ℤ) (hs : s ≠ 0)
    (hpos : 0 < calculateCredits cps s) :
    (statusHandler cps true s true b).2 = b - calculateCredits cps s ∧
    (statusHandler cps true s true b).2 < b := by
  constructor
  · simp [statusHandler, subtractCredits, hs]
  · simp only [statusHandler, subtractCredits, hs]
    simp
    omega

/-- Witness for `statusHandler_settle_delta` at cps 15, seconds 3,
balance 25. -/
theorem statusHandler_settle_delta_witness :
    (statusHandler 15 true 3 true 25).2 = 25 - calculateCredits 15 3 ∧
    (statusHandler 15 true 3 true 25).2 < 25 :=
  statusHandler_settle_delta 15 3 25 (by norm_num) (by decide)

/-- Claim C3 (code bug, at the failing input): a user with stored balance 0
whose SUCCEEDED task is settled for 1 second at 15 credits/second ends with
stored balance -15, violating the non-negative balance invariant the code
itself records as a TODO ("Make sure balance cannot go below 0"). -/
theorem statusHandler_drives_balance_negative :
    (statusHandler 15 true 1 true 0).2 = -15 ∧
    (statusHandler 15 true 1 true 0).2 < 0 := by
  decide

/-- JS `Math.max(1, Math.round(requestedSeconds))` from the `/v1/jobs`
handler (src/webhook-server.js line 421). -/
def billableSeconds (requestedSeconds : ℚ) : ℤ :=
  max 1 (jsRound requestedSeconds)

/-- Credits needed by the `/v1/jobs` handler for a raw requested-seconds
value: the input is first clamped with `Math.max(0, ...)` (line 418), then
`billableSeconds * creditsPerSecond` (line 422). -/
def jobsNeeded (creditsPerSecond : ℤ) (rawSeconds : ℚ) : ℤ :=
  billableSeconds (max 0 rawSeconds) * creditsPerSecond

/-- Outcome of the `/v1/jobs` route: a 402 rejection carrying `needed` and
`balance`, or a 200 response carrying the generated `taskId` and
`reservedCredits`. -/
inductive ReserveResult where
  | insufficient (needed : ℤ) (balance : ℤ)
  | ok (taskId : String) (reservedCredits : ℤ)
deriving DecidableEq

/-- Embeds the `/v1/jobs` route handler of src/webhook-server.js lines
417-430.  The src/unnamed/part_000 lines 429-451 draft is textually the
same on this path, but that draft is dead code (its `verifyEnvVariables`
throws whenever a required env var is set, and it never awaits `getUser`),
so the running handler is the one embedded here.  `now` is `Date.now()`;
the handler generates `taskId = "task_" + now` with no uniqueness check.
Returns the route outcome and the stored balance after the call. -/
def reserveJob (creditsPerSecond : ℤ) (now : ℕ) (rawSeconds : ℚ)
    (balance : ℤ) : ReserveResult × ℤ :=
  let needed := jobsNeeded creditsPerSecond rawSeconds
  if balance < needed then (.insufficient needed balance, balance)
  else (.ok ("task_" ++ toString now) needed, balance - needed)

/-- Claim C4: when the balance is strictly below the needed credits, the
`/v1/jobs` reserve fails with the insufficient-credits result carrying both
`needed` and the current `balance`, and the stored balance is unchanged
(the code keeps no ledger, so there is no other state to change). -/
theorem reserveJob_insufficient (cps : ℤ) (now : ℕ) (raw : ℚ) (b : ℤ)
    (h : b < jobsNeeded cps raw) :
    reserveJob cps now raw b = (.insufficient (jobsNeeded cps raw) b, b) := by
  simp [reserveJob, h]

/-- Witness for `reserveJob_insufficient`: the spec's boundary scenario 1 —
balance 0, 5 requested seconds at 15 credits/second needs 75, fails
carrying needed 75 and balance 0, leaving the balance at 0. -/
theorem reserveJob_insufficient_witness :
    (0 : ℤ) < jobsNeeded 15 5 ∧
    reserveJob 15 1 5 0 = (.insufficient (jobsNeeded 15 5) 0, 0) :=
  ⟨by norm_num [jobsNeeded, billableSeconds, jsRound],
   reserveJob_insufficient 15 1 5 0
     (by norm_num [jobsNeeded, billableSeconds, jsRound])⟩

/-- Claim C5: when the balance covers the needed credits, the `/v1/jobs`
reserve succeeds, the returned `reservedCredits` equals
`jobsNeeded creditsPerSecond requestedSeconds`, and the new stored balance
is exactly the old balance minus that amount. -/
theorem reserveJob_success (cps : ℤ) (now : ℕ) (raw : ℚ) (b : ℤ)
    (h : jobsNeeded cps raw ≤ b) :
    reserveJob cps now raw b
      = (.ok ("task_" ++ toString now) (jobsNeeded cps raw),
         b - jobsNeeded cps raw) := by
  simp [reserveJob, not_lt.mpr h]

/-- Witness for `reserveJob_success`: the spec's boundary scenario 2 —
balance 100, 5 requested seconds at 15 credits/second reserves 75, leaving
balance 25. -/
theorem reserveJob_success_witness :
    jobsNeeded 15 5 ≤ 100 ∧
    reserveJob 15 7 5 100
      = (.ok ("task_" ++ toString 7) (jobsNeeded 15 5), 100 - jobsNeeded 15 5) :=
  ⟨by norm_num [jobsNeeded, billableSeconds, jsRound],
   reserveJob_success 15 7 5 100
     (by norm_num [jobsNeeded, billableSeconds, jsRound])⟩

/-- Claim C6 counterexample: the repository has two different
seconds-to-credits conversions.  The api/v2 `calculateCredits` is
`ceil(seconds) * creditsPerSecond` with no clamping and no 1-second
minimum: at 2.3 seconds and 15 credits/second it yields 45 while the
claimed formula `max(1, round(clamp0 seconds)) * creditsPerSecond` (the
`/v1/jobs` form, `jobsNeeded`) yields 30, and at -1 seconds it yields -15,
a negative result. -/
theorem calculateCredits_deviates_from_claimed_formula :
    calculateCredits 15 (23/10) = 45 ∧
    jobsNeeded 15 (23/10) = 30 ∧
    calculateCredits 15 (23/10) ≠ jobsNeeded 15 (23/10) ∧
    calculateCredits 15 (-1) = -15 ∧
    calculateCredits 15 (-1) < 0 := by
  have hc1 : (⌈(23/10 : ℚ)⌉ : ℤ) = 3 := by
    rw [Int.ceil_eq_iff]
    norm_num
  have hc2 : (⌈(-1 : ℚ)⌉ : ℤ) = -1 := by
    rw [Int.ceil_eq_iff]
    norm_num
  norm_num [calculateCredits, jobsNeeded, billableSeconds, jsRound, hc1, hc2]

/-- Claim C6 (amended): the `/v1/jobs` conversion does follow
`max(1, round(seconds clamped to 0)) * creditsPerSecond` — its billable
seconds are always at least 1, and with a non-negative credits-per-second
rate the result is never negative (and is an integer by construction); the
api/v2 `calculateCredits` path instead uses `ceil` with no clamping and can
differ and go negative. -/
theorem jobsNeeded_nonneg (cps : ℤ) (raw : ℚ) (h : 0 ≤ cps) :
    1 ≤ billableSeconds (max 0 raw) ∧
    cps ≤ jobsNeeded cps raw ∧ 0 ≤ jobsNeeded cps raw := by
  have h1 : 1 ≤ billableSeconds (max 0 raw) := le_max_left _ _
  refine ⟨h1, ?_, ?_⟩
  · calc cps = 1 * cps := (one_mul cps).symm
    _ ≤ billableSeconds (max 0 raw) * cps := by
        exact mul_le_mul_of_nonneg_right h1 h
  · have : (0 : ℤ) ≤ 1 := by norm_num
    calc (0 : ℤ) = 0 * cps := (zero_mul cps).symm
    _ ≤ billableSeconds (max 0 raw) * cps := by
        exact mul_le_mul_of_nonneg_right (le_trans this (le_max_left _ _)) h

/-- Witness for `jobsNeeded_nonneg` at cps 15 and 5 requested seconds. -/
theorem jobsNeeded_nonneg_witness :
    1 ≤ billableSeconds (max 0 (5 : ℚ)) ∧
    (15 : ℤ) ≤ jobsNeeded 15 5 ∧ 0 ≤ jobsNeeded 15 5 :=
  jobsNeeded_nonneg 15 5 (by norm_num)

/-- Claim C9 counterexample: there is no duplicate-task check.  Two
reserves in the same millisecond (`Date.now() = 42`) both succeed, return
the identical taskId "task_42", and the balance is debited twice (100 → 85
→ 70); no DUPLICATE_TASK outcome exists in the handler. -/
theorem reserveJob_no_duplicate_check :
    reserveJob 15 42 1 100 = (.ok "task_42" 15, 85) ∧
    reserveJob 15 42 1 85 = (.ok "task_42" 15, 70) := by
  have h : jobsNeeded 15 1 = 15 := by
    norm_num [jobsNeeded, billableSeconds, jsRound]
  have ht : ("task_" ++ toString 42 : String) = "task_42" := rfl
  constructor <;> simp [reserveJob, h, ht]

/-- Claim C9 (amended): the `/v1/jobs` handler generates the taskId from
the current time and performs no uniqueness or conflict check: whenever the
remaining balance still covers the needed credits, a second reserve at the
same millisecond succeeds again with the very same taskId and debits the
balance a second time. -/
theorem reserveJob_second_reserve_debits_again (cps : ℤ) (now : ℕ) (raw : ℚ)
    (b : ℤ) (h1 : jobsNeeded cps raw ≤ b)
    (h2 : jobsNeeded cps raw ≤ b - jobsNeeded cps raw) :
    reserveJob cps now raw ((reserveJob cps now raw b).2)
      = (.ok ("task_" ++ toString now) (jobsNeeded cps raw),
         b - 2 * jobsNeeded cps raw) := by
  have e1 : (reserveJob cps now raw b).2 = b - jobsNeeded cps raw := by
    simp [reserveJob, not_lt.mpr h1]
  rw [e1]
  simp [reserveJob, not_lt.mpr h2]
  omega

/-- Witness for `reserveJob_second_reserve_debits_again` at cps 15,
Date.now() 42, 1 second, balance 100. -/
theorem reserveJob_second_reserve_debits_again_witness :
    jobsNeeded 15 1 ≤ 100 ∧ jobsNeeded 15 1 ≤ 100 - jobsNeeded 15 1 ∧
    reserveJob 15 42 1 ((reserveJob 15 42 1 100).2)
      = (.ok ("task_" ++ toString 42) (jobsNeeded 15 1),
         100 - 2 * jobsNeeded 15 1) :=
  ⟨by norm_num [jobsNeeded, billableSeconds, jsRound],
   by norm_num [jobsNeeded, billableSeconds, jsRound],
   reserveJob_second_reserve_debits_again 15 42 1 100
     (by norm_num [jobsNeeded, billableSeconds, jsRound])
     (by norm_num [jobsNeeded, billableSeconds, jsRound])⟩

/-- Plan-id to credits table from src/webhook-server.js lines 227-232
(observed env defaults for the three selling-plan tiers);
`planCredits[planId] || 1000` falls back to 1000 for unknown plans. -/
def planCredits (planId : String) : ℤ :=
  if planId = "690384601430" then 3000
  else if planId = "690385518934" then 7500
  else if planId = "690385551702" then 24000
  else 1000

/-- Balance of a user in the `usersByEmail` store; a missing user counts
as balance 0 (`usersByEmail.get(email) || { balance: 0 }`). -/
def getBalance : List (String × ℤ) → String → ℤ
  | [], _ => 0
  | (e, b) :: rest, x => if e = x then b else getBalance rest x

/-- Write a user's balance into the `usersByEmail` store
(`usersByEmail.set(email, ...)`). -/
def setBalance : List (String × ℤ) → String → ℤ → List (String × ℤ)
  | [], x, v => [(x, v)]
  | (e, b) :: rest, x, v =>
      if e = x then (x, v) :: rest else (e, b) :: setBalance rest x v

/-- State touched by the webhook handler: the `processedWebhookIds` set
and the balances in `usersByEmail` (only the balance field matters for the
claims). -/
structure WState where
  processed : List String
  users : List (String × ℤ)
deriving DecidableEq

/-- Parsed shape of the webhook order body, as the handler case-splits on
it: JSON parsing threw (`malformed`), an order with a subscription line
item (customer email when present, first selling-plan id), an order whose
line items are only top-up items (sku containing TOPUP or CREDIT, lines
202-204), or an order with no credit-relevant items. -/
inductive OrderBody where
  | malformed
  | subscription (email : Option String) (planId : String)
  | topup (email : Option String) (sku : String)
  | noItems
deriving DecidableEq

/-- HTTP-level outcome of the webhook route. -/
inductive WebhookResponse where
  | unauthorized
  | duplicate
  | received
deriving DecidableEq

/-- Duplicate check of src/webhook-server.js lines 164-167:
`webhookId && processedWebhookIds.has(webhookId)`. -/
def isDup (st : WState) (webhookId : Option String) : Bool :=
  match webhookId with
  | some w => decide (w ∈ st.processed)
  | none => false

/-- Credit grant of src/webhook-server.js lines 233-261: when the order
has a subscription item and a customer email, add `planCredits planId` to
that user's balance (previous balance defaulting to 0); in every other
case the store is untouched — in particular the top-up branch (lines
254-261) only logs the items' title, sku and price and never credits, and
a JSON parse error is swallowed by the catch block. -/
def grant (users : List (String × ℤ)) : OrderBody → List (String × ℤ)
  | .subscription (some e) planId =>
      setBalance users e (getBalance users e + planCredits planId)
  | _ => users

/-- The `processedWebhookIds.add(webhookId)` at line 288, executed at the
end of the handler body whether or not processing succeeded. -/
def addProcessed (processed : List String) : Option String → List String
  | some w => if w ∈ processed then processed else processed ++ [w]
  | none => processed

/-- Embeds the `/v1/webhooks/shopify` route handler of
src/webhook-server.js lines 151-294: duplicate short-circuit, HMAC check
(`sigOk` is the outcome of the comparison when a secret is configured),
credit grant, then marking the webhook id processed and answering 200.
Returns the new state and the HTTP-level outcome. -/
def handleShopifyWebhook (st : WState) (webhookId : Option String)
    (sigOk : Bool) (body : OrderBody) : WState × WebhookResponse :=
  if isDup st webhookId then (st, .duplicate)
  else if !sigOk then (st, .unauthorized)
  else ({ processed := addProcessed st.processed webhookId,
          users := grant st.users body }, .received)

/-- Reading back a balance just written to the store returns exactly that
balance. -/
theorem getBalance_setBalance (users : List (String × ℤ)) (e : String)
    (v : ℤ) : getBalance (setBalance users e v) e = v := by
  induction users with
  | nil => simp [setBalance, getBalance]
  | cons hd tl ih =>
      by_cases h : hd.1 = e
      · simp [setBalance, getBalance, h]
      · simp [setBalance, getBalance, h, ih]

/-- After any delivery carrying a webhook id, that id is in the processed
set (either it already was and the call short-circuited, or the handler
added it at the end). -/
theorem mem_processed_after (st : WState) (w : String) (body : OrderBody) :
    w ∈ ((handleShopifyWebhook st (some w) true body).1).processed := by
  by_cases h : w ∈ st.processed <;>
    simp [handleShopifyWebhook, isDup, addProcessed, h]

/-- A delivery whose webhook id is already in the processed set is
answered as a duplicate with no state change. -/
theorem handleShopifyWebhook_dup (st : WState) (w : String) (sig : Bool)
    (body : OrderBody) (hmem : w ∈ st.processed) :
    handleShopifyWebhook st (some w) sig body = (st, .duplicate) := by
  simp [handleShopifyWebhook, isDup, hmem]

/-- Claim C7 counterexample: a top-up webhook event produces zero balance
changes, not exactly one.  From the empty state, delivering a top-up order
(webhook id "evtT", customer "u@x", sku AUTOVFX-TOPUP-1000) is accepted
but credits nothing — the user store stays empty and the customer's
balance stays 0 — and a second delivery with the same id is
short-circuited as a duplicate, so processing the event twice yields zero
balance changes. -/
theorem shopifyWebhook_topup_credits_nothing_cex :
    (handleShopifyWebhook ⟨[], []⟩ (some "evtT") true
        (.topup (some "u@x") "AUTOVFX-TOPUP-1000")).1
      = ⟨["evtT"], []⟩ ∧
    getBalance
        ((handleShopifyWebhook ⟨[], []⟩ (some "evtT") true
            (.topup (some "u@x") "AUTOVFX-TOPUP-1000")).1).users "u@x" = 0 ∧
    handleShopifyWebhook ⟨["evtT"], []⟩ (some "evtT") true
        (.topup (some "u@x") "AUTOVFX-TOPUP-1000")
      = (⟨["evtT"], []⟩, .duplicate) := by
  refine ⟨rfl, rfl, rfl⟩

/-- Claim C7 (amended): per webhook id, renewal (subscription) events are
credited exactly once while top-up events are never credited.  For an id
not yet processed: a first delivery of a subscription order adds exactly
`planCredits planId` to the customer's balance and any redelivery with the
same id is short-circuited as a duplicate with no state change; a first
delivery of a top-up order leaves every balance unchanged (the live
top-up branch only logs), and a redelivery is likewise short-circuited. -/
theorem shopifyWebhook_renewal_once_topup_never (st : WState)
    (w e p sku : String) (sig2 : Bool) (body2 : OrderBody)
    (h : w ∉ st.processed) :
    (getBalance
        ((handleShopifyWebhook st (some w) true
            (.subscription (some e) p)).1).users e
      = getBalance st.users e + planCredits p ∧
    handleShopifyWebhook
        ((handleShopifyWebhook st (some w) true
            (.subscription (some e) p)).1) (some w) sig2 body2
      = ((handleShopifyWebhook st (some w) true
            (.subscription (some e) p)).1, .duplicate)) ∧
    (((handleShopifyWebhook st (some w) true
        (.topup (some e) sku)).1).users = st.users ∧
    handleShopifyWebhook
        ((handleShopifyWebhook st (some w) true
            (.topup (some e) sku)).1) (some w) sig2 body2
      = ((handleShopifyWebhook st (some w) true
            (.topup (some e) sku)).1, .duplicate)) := by
  have hdup : isDup st (some w) = false := by
    simp [isDup, h]
  refine ⟨⟨?_, ?_⟩, ?_, ?_⟩
  · simp [handleShopifyWebhook, hdup, grant, getBalance_setBalance]
  · exact handleShopifyWebhook_dup _ w sig2 body2
      (mem_processed_after st w (.subscription (some e) p))
  · simp [handleShopifyWebhook, hdup, grant]
  · exact handleShopifyWebhook_dup _ w sig2 body2
      (mem_processed_after st w (.topup (some e) sku))

/-- Witness for `shopifyWebhook_renewal_once_topup_never`: empty store,
webhook id "evt1", customer "u@x", unknown plan "p" (default 1000
credits), top-up sku AUTOVFX-TOPUP-1000; the subscription delivery grants
once, the top-up delivery grants nothing, and both redeliveries are
duplicate no-ops. -/
theorem shopifyWebhook_renewal_once_topup_never_witness :
    (getBalance
        ((handleShopifyWebhook ⟨[], []⟩ (some "evt1") true
            (.subscription (some "u@x") "p")).1).users "u@x"
      = getBalance ([] : List (String × ℤ)) "u@x" + planCredits "p" ∧
    handleShopifyWebhook
        ((handleShopifyWebhook ⟨[], []⟩ (some "evt1") true
            (.subscription (some "u@x") "p")).1) (some "evt1") true .noItems
      = ((handleShopifyWebhook ⟨[], []⟩ (some "evt1") true
            (.subscription (some "u@x") "p")).1, .duplicate)) ∧
    (((handleShopifyWebhook ⟨[], []⟩ (some "evt1") true
        (.topup (some "u@x") "AUTOVFX-TOPUP-1000")).1).users = [] ∧
    handleShopifyWebhook
        ((handleShopifyWebhook ⟨[], []⟩ (some "evt1") true
            (.topup (some "u@x") "AUTOVFX-TOPUP-1000")).1)
        (some "evt1") true .noItems
      = ((handleShopifyWebhook ⟨[], []⟩ (some "evt1") true
            (.topup (some "u@x") "AUTOVFX-TOPUP-1000")).1, .duplicate)) :=
  shopifyWebhook_renewal_once_topup_never ⟨[], []⟩ "evt1" "u@x" "p"
    "AUTOVFX-TOPUP-1000" true .noItems (by simp)

/-- Claim C8 counterexample: a delivery whose body fails to parse is still
marked processed.  Starting from the empty state, a malformed delivery
with webhook id "evt" grants nothing but records "evt" in
`processedWebhookIds`, and the redelivery of the same id — now with a
well-formed subscription order — is short-circuited as a duplicate instead
of being reprocessed. -/
theorem shopifyWebhook_failure_marked_processed_cex :
    (handleShopifyWebhook ⟨[], []⟩ (some "evt") true .malformed).1
      = ⟨["evt"], []⟩ ∧
    handleShopifyWebhook ⟨["evt"], []⟩ (some "evt") true
        (.subscription (some "u@x") "p")
      = (⟨["evt"], []⟩, .duplicate) := by
  constructor
  · rfl
  · rfl

/-- Claim C8 (amended): when processing fails (the catch block swallows
the parse error), the handler still adds the webhook id to the processed
set, so any redelivery of that id — whatever its body — is answered as a
duplicate with no state change, rather than being reprocessed. -/
theorem shopifyWebhook_failure_still_marked (st : WState) (w : String)
    (sig2 : Bool) (body2 : OrderBody) :
    w ∈ ((handleShopifyWebhook st (some w) true .malformed).1).processed ∧
    handleShopifyWebhook
        ((handleShopifyWebhook st (some w) true .malformed).1)
        (some w) sig2 body2
      = ((handleShopifyWebhook st (some w) true .malformed).1,
         .duplicate) := by
  refine ⟨mem_processed_after st w .malformed, ?_⟩
  exact handleShopifyWebhook_dup _ w sig2 body2
    (mem_processed_after st w .malformed)

/-- JS number values on the `/v1/jobs` path, tracking NaN exactly.  All
non-NaN values on this path are exact (integers and small decimals), so a
rational payload is a faithful model of the doubles involved. -/
inductive JSNum where
  | nan
  | num (q : ℚ)
deriving DecidableEq

/-- JS `Math.max`: returns NaN if either argument is NaN. -/
def jsMax : JSNum → JSNum → JSNum
  | .num a, .num b => .num (max a b)
  | _, _ => .nan

/-- JS `Math.round` lifted to `JSNum`: `Math.round(NaN)` is NaN. -/
def jsRoundN : JSNum → JSNum
  | .nan => .nan
  | .num q => .num (jsRound q)

/-- JS multiplication: NaN propagates. -/
def jsMul : JSNum → JSNum → JSNum
  | .num a, .num b => .num (a * b)
  | _, _ => .nan

/-- JS subtraction: NaN propagates. -/
def jsSub : JSNum → JSNum → JSNum
  | .num a, .num b => .num (a - b)
  | _, _ => .nan

/-- JS `<` comparison: any comparison with NaN is false. -/
def jsLt : JSNum → JSNum → Bool
  | .num a, .num b => decide (a < b)
  | _, _ => false

/-- Shape of `req.body.requestedSeconds` as the handler sees it: absent, a
truthy string that does not parse as a number, or a numeric value. -/
inductive ReqField where
  | missing
  | nonNumericStr (s : String)
  | numeric (q : ℚ)
deriving DecidableEq

/-- JS `Number(req.body.requestedSeconds || 0)`: an absent field is
replaced by 0 before conversion; a truthy non-numeric string converts to
NaN; a numeric value converts to itself (a numeric 0 is falsy, but
`Number(0)` is also 0, so the outcome is the same). -/
def fieldToNumber : ReqField → JSNum
  | .missing => .num 0
  | .nonNumericStr _ => .nan
  | .numeric q => .num q

/-- Embeds the `/v1/jobs` handler (src/webhook-server.js lines 417-430)
over `JSNum`, keeping the exact JS number pipeline:
`requestedSeconds = Math.max(0, Number(req.body?.requestedSeconds || 0))`,
`billableSeconds = Math.max(1, Math.round(requestedSeconds))`,
`needed = billableSeconds * creditsPerSecond`, rejection when
`user.balance < needed`, else `user.balance -= needed`.  Returns the
reserved credits when the request is accepted (`none` is the 402
rejection) together with the stored balance after the call. -/
def reserveJobNum (creditsPerSecond : ℚ) (field : ReqField)
    (balance : JSNum) : Option JSNum × JSNum :=
  let requestedSeconds := jsMax (.num 0) (fieldToNumber field)
  let billable := jsMax (.num 1) (jsRoundN requestedSeconds)
  let needed := jsMul billable (.num creditsPerSecond)
  if jsLt balance needed then (none, balance)
  else (some needed, jsSub balance needed)

/-- Claim C10: for an authenticated reserve whose `requestedSeconds` is a
truthy non-numeric string, `Number(...)` yields NaN, the whole
needed-credits pipeline evaluates to NaN, the insufficient-credits
comparison `balance < NaN` is false so the rejection branch is
unreachable, the reserve succeeds with `reservedCredits = NaN`, and the
stored balance is set to NaN. -/
theorem reserveJobNum_nonNumeric_corrupts_balance (cps : ℚ) (s : String)
    (b : ℚ) :
    reserveJobNum cps (.nonNumericStr s) (.num b) = (some .nan, .nan) ∧
    jsLt (.num b) .nan = false := by
  constructor
  · rfl
  · rfl
